import Mathlib

/-!
# NovaArch BIM viewer: route handlers of `routes/auth.js` and `routes/models.js`

A shallow embedding of the five Express route handlers and a verification of
their request/response behaviour.

Modelling conventions.

* JavaScript values that a handler only passes through (message records, the
  viewer token, thrown errors) are elements of one arbitrary type `α`.
* `undefined` (an absent property, an absent form field) is `Option.none`.
* An `await`ed collaborator either resolves or rejects: `Except α _`.
* A handler run is summarised by the ordered list of collaborator invocations it
  made and by the one thing it did with `res` / `next`.
-/

namespace BimViewer

/-! ## Data model -/

/-- A derivative node of a translation manifest: an optional `messages` array and an
optional `children` array of nodes of the same shape. -/
inductive Derivative (α : Type) where
  | mk (messages : Option (List α)) (children : Option (List (Derivative α)))

/-- The `messages` property of a node. -/
def Derivative.messages {α : Type} : Derivative α → Option (List α)
  | .mk ms _ => ms

/-- The `children` property of a node. -/
def Derivative.children {α : Type} : Derivative α → Option (List (Derivative α))
  | .mk _ cs => cs

/-- A translation manifest as read by the status route: `status`, `progress` and an
optional `derivatives` array. -/
structure Manifest (α : Type) where
  status : String
  progress : String
  derivatives : Option (List (Derivative α))

/-- An entry of the bucket listing, also the value `uploadObject` resolves to. -/
structure BucketObject where
  objectKey : String
  objectId : String
  deriving DecidableEq, Repr

/-- An uploaded file as `express-formidable` exposes it in `req.files`. -/
structure UploadedFile where
  name : String
  path : String
  deriving DecidableEq, Repr

/-- The parts of an upload request the handler reads: the text fields and the files
of the multipart form, both keyed by field name. -/
structure UploadRequest where
  fields : String → Option String
  files : String → Option UploadedFile

/-! ## Collaborators and observable behaviour -/

/-- The functions the routes require from `../services/aps.js` and the constant they
require from `../config.js`. Neither file is part of the routes, so every handler takes
them as a parameter. An awaited function resolves (`Except.ok`) or rejects
(`Except.error`); `urnify` is synchronous and is the codec of the specification, a pure
total function on identifier strings. -/
structure Services (α : Type) where
  getViewerToken : Except α α
  listObjects : Except α (List BucketObject)
  getManifest : String → Except α (Option (Manifest α))
  uploadObject : String → String → Except α BucketObject
  translateObject : String → Option String → Except α α
  deleteObject : String → Except α α
  urnify : String → String
  APS_BUCKET : String

/-- One invocation of a collaborator, with the arguments it received. -/
inductive Call where
  | getViewerToken
  | listObjects
  | getManifest (urn : String)
  | uploadObject (name : String) (path : String)
  | translateObject (urn : String) (entrypoint : Option String)
  | deleteObject (objectKey : String)
  | urnify (objectId : String)
  deriving DecidableEq, Repr

/-- A property value inside a response object: a string or an array of message records. -/
inductive JsValue (α : Type) where
  | str (s : String)
  | list (items : List α)
  deriving DecidableEq, Repr

/-- An object literal: its properties in the order they are written. -/
abbrev JsObject (α : Type) := List (String × JsValue α)

/-- The keys of an object literal. -/
def JsObject.keys {α : Type} (o : JsObject α) : List String :=
  o.map Prod.fst

/-- Property read on an object literal; `none` is `undefined`. -/
def JsObject.get {α : Type} (o : JsObject α) (key : String) : Option (JsValue α) :=
  List.lookup key o

/-- What is handed to `res.json` / `res.send`. -/
inductive Body (α : Type) where
  | object (o : JsObject α)
  | array (items : List (JsObject α))
  | value (v : α)
  | text (s : String)
  deriving DecidableEq, Repr

/-- The single thing a handler does with `res` or `next`: send a response with an HTTP
status (200 unless `res.status` was called) or forward an error with `next(err)`. -/
inductive Reply (α : Type) where
  | respond (status : Nat) (body : Body α)
  | next (err : α)
  deriving DecidableEq, Repr

/-- A handler run: the collaborator invocations in the order they were made, and the reply. -/
structure Outcome (α : Type) where
  calls : List Call
  reply : Reply α
  deriving DecidableEq, Repr

/-- The `messages` array of a reply, when the reply is a JSON object that has one. -/
def Reply.messages {α : Type} : Reply α → Option (List α)
  | .respond _ (.object o) =>
    match o.get "messages" with
    | some (.list ms) => some ms
    | _ => none
  | _ => none

/-! ## `routes/auth.js` -/

/-- Handler of `GET /api/auth/token`. -/
def tokenHandler {α : Type} (svc : Services α) : Outcome α :=
  match svc.getViewerToken with
  | .ok token => ⟨[.getViewerToken], .respond 200 (.value token)⟩
  | .error err => ⟨[.getViewerToken], .next err⟩

/-! ## `routes/models.js` -/

/-- The arrow function mapped over the bucket listing: `{ name: o.objectKey, urn: urnify(o.objectId) }`. -/
def listEntry {α : Type} (svc : Services α) (o : BucketObject) : JsObject α :=
  [("name", .str o.objectKey), ("urn", .str (svc.urnify o.objectId))]

/-- Handler of `GET /api/models`. -/
def listHandler {α : Type} (svc : Services α) : Outcome α :=
  match svc.listObjects with
  | .ok objects =>
    ⟨.listObjects :: objects.map (fun o => .urnify o.objectId),
      .respond 200 (.array (objects.map (listEntry svc)))⟩
  | .error err => ⟨[.listObjects], .next err⟩

/-- One iteration of the inner loop over `derivative.children`. The statement is
`messages.concat(child.messages || [])`: `concat` builds a new array and leaves its
receiver as it was, and the statement does not assign the result, so the accumulator
leaves the iteration unchanged. -/
def childStep {α : Type} (messages : List α) (child : Derivative α) : List α :=
  let _concatenated := messages ++ child.messages.getD []
  messages

/-- One iteration of the outer loop over `manifest.derivatives`:
`messages = messages.concat(derivative.messages || [])`, then the inner loop when
`derivative.children` is present. -/
def derivativeStep {α : Type} (messages : List α) (derivative : Derivative α) : List α :=
  let messages := messages ++ derivative.messages.getD []
  match derivative.children with
  | some children => children.foldl childStep messages
  | none => messages

/-- The value of `messages` when the status handler builds its response. -/
def collectMessages {α : Type} (manifest : Manifest α) : List α :=
  match manifest.derivatives with
  | some derivatives => derivatives.foldl derivativeStep []
  | none => []

/-- Handler of `GET /api/models/:urn/status`; `urn` is `req.params.urn`. A falsy
manifest is `none`. -/
def statusHandler {α : Type} (svc : Services α) (urn : String) : Outcome α :=
  match svc.getManifest urn with
  | .ok (some manifest) =>
    ⟨[.getManifest urn],
      .respond 200 (.object [("status", .str manifest.status),
        ("progress", .str manifest.progress),
        ("messages", .list (collectMessages manifest))])⟩
  | .ok none => ⟨[.getManifest urn], .respond 200 (.object [("status", .str "n/a")])⟩
  | .error err => ⟨[.getManifest urn], .next err⟩

/-- The first statement of the upload handler: when the `model-zip-entrypoint` field
equals the empty string it is overwritten with `undefined`. -/
def normalizeEntrypoint (fields : String → Option String) : String → Option String :=
  if fields "model-zip-entrypoint" = some "" then
    Function.update fields "model-zip-entrypoint" none
  else fields

/-- Handler of `POST /api/models`. -/
def uploadHandler {α : Type} (svc : Services α) (req : UploadRequest) : Outcome α :=
  let fields := normalizeEntrypoint req.fields
  match req.files "model-file" with
  | none => ⟨[], .respond 400 (.text "The required field (\"model-file\") is missing.")⟩
  | some file =>
    match svc.uploadObject file.name file.path with
    | .error err => ⟨[.uploadObject file.name file.path], .next err⟩
    | .ok obj =>
      match svc.translateObject (svc.urnify obj.objectId) (fields "model-zip-entrypoint") with
      | .error err =>
        ⟨[.uploadObject file.name file.path, .urnify obj.objectId,
            .translateObject (svc.urnify obj.objectId) (fields "model-zip-entrypoint")],
          .next err⟩
      | .ok _ =>
        ⟨[.uploadObject file.name file.path, .urnify obj.objectId,
            .translateObject (svc.urnify obj.objectId) (fields "model-zip-entrypoint"),
            .urnify obj.objectId],
          .respond 200 (.object [("name", .str obj.objectKey),
            ("urn", .str (svc.urnify obj.objectId))])⟩

/-- The confirmation text of the delete route. -/
def deleteText {α : Type} (svc : Services α) (objectKey : String) : String :=
  "The " ++ objectKey ++ " file is deleted from " ++ svc.APS_BUCKET ++ " successfully."

/-- Handler of `DELETE /api/models/:objectKey/`; `objectKey` is `req.params.objectKey`. -/
def deleteHandler {α : Type} (svc : Services α) (objectKey : String) : Outcome α :=
  match svc.deleteObject objectKey with
  | .ok _ => ⟨[.deleteObject objectKey], .respond 200 (.text (deleteText svc objectKey))⟩
  | .error err => ⟨[.deleteObject objectKey], .next err⟩

/-! ## Reference definitions written from the specification

These follow the words of the specification, not the code, and are what the handlers
are compared with. -/

mutual
/-- Specification, full flattening of one node: its own messages (none when absent),
then the flattening of each child in listed order. -/
def specPreorder {α : Type} : Derivative α → List α
  | .mk ms cs => ms.getD [] ++ specPreorderChildren cs
/-- Specification, full flattening of an optional sequence of nodes. -/
def specPreorderChildren {α : Type} : Option (List (Derivative α)) → List α
  | none => []
  | some ds => specPreorderList ds
/-- Specification, full flattening of a sequence of nodes, in listed order. -/
def specPreorderList {α : Type} : List (Derivative α) → List α
  | [] => []
  | d :: ds => specPreorder d ++ specPreorderList ds
end

/-- Specification, `messages` of the flattened summary: the pre-order concatenation of
the messages of every node of the manifest, whatever its depth. -/
def specFlatten {α : Type} (manifest : Manifest α) : List α :=
  specPreorderChildren manifest.derivatives

/-- The own messages of a node, the empty sequence when the field is absent. -/
def ownMessages {α : Type} (d : Derivative α) : List α :=
  d.messages.getD []

/-- Flattening limited to the two levels the handler loops over: for each derivative in
listed order its own messages, then the own messages of each of its direct children in
listed order. Deeper descendants do not contribute. -/
def twoLevelFlatten {α : Type} (manifest : Manifest α) : List α :=
  (manifest.derivatives.getD []).flatMap
    (fun d => ownMessages d ++ (d.children.getD []).flatMap ownMessages)

/-- The concatenation, in listed order, of the own messages of the top-level
derivatives only. -/
def topLevelMessages {α : Type} (manifest : Manifest α) : List α :=
  (manifest.derivatives.getD []).flatMap ownMessages

mutual
/-- The node with every absent `messages` or `children` field, at any depth, replaced
by the empty sequence. -/
def fillNode {α : Type} : Derivative α → Derivative α
  | .mk ms cs => .mk (some (ms.getD [])) (some (fillChildren cs))
/-- An optional sequence of nodes, absent read as empty, with every node filled. -/
def fillChildren {α : Type} : Option (List (Derivative α)) → List (Derivative α)
  | none => []
  | some ds => fillList ds
/-- A sequence of nodes with every node filled. -/
def fillList {α : Type} : List (Derivative α) → List (Derivative α)
  | [] => []
  | d :: ds => fillNode d :: fillList ds
end

/-- The manifest with every absent optional sequence (`derivatives`, and `messages` and
`children` of every node) replaced by the empty sequence. Two manifests have the same
filling exactly when they agree up to reading absent fields as empty. -/
def fillManifest {α : Type} (manifest : Manifest α) : Manifest α :=
  { manifest with derivatives := some (fillChildren manifest.derivatives) }

/-- Two manifests differ at most in the `children` of their derivatives: same status,
same progress, `derivatives` present in both or absent in both, and the derivatives
carry the same `messages` fields position by position. -/
def SameUpToChildren {α : Type} (m m' : Manifest α) : Prop :=
  m.status = m'.status ∧ m.progress = m'.progress ∧
    m.derivatives.map (List.map Derivative.messages) =
      m'.derivatives.map (List.map Derivative.messages)

/-- The keys of a reply that is a JSON object. -/
def Reply.keys {α : Type} : Reply α → Option (List String)
  | .respond _ (.object o) => some o.keys
  | _ => none

/-- A property of a reply that is a JSON object. -/
def Reply.field {α : Type} (key : String) : Reply α → Option (JsValue α)
  | .respond _ (.object o) => o.get key
  | _ => none

/-- The entry-point hint after the first statement of the upload handler, as the
specification words it: the empty string counts as absent. -/
def specEntrypoint (fields : String → Option String) : Option String :=
  if fields "model-zip-entrypoint" = some "" then none else fields "model-zip-entrypoint"

/-- The request with the `model-zip-entrypoint` field submitted with the given value;
`none` is the request that omits the field. Everything else is kept. -/
def UploadRequest.withEntrypoint (req : UploadRequest) (value : Option String) :
    UploadRequest :=
  { req with fields := Function.update req.fields "model-zip-entrypoint" value }

/-! ## Concrete inputs -/

/-- Collaborators that all succeed. The manifest lookup yields the given value for
every urn and the upload returns an object named after the file. -/
def demoServices (manifest : Option (Manifest String)) : Services String where
  getViewerToken := .ok "token"
  listObjects := .ok [⟨"a.rvt", "id1"⟩, ⟨"b.rvt", "id2"⟩]
  getManifest := fun _ => .ok manifest
  uploadObject := fun name _ => .ok ⟨name, "id-" ++ name⟩
  translateObject := fun _ _ => .ok "job"
  deleteObject := fun _ => .ok "done"
  urnify := fun objectId => "urn-" ++ objectId
  APS_BUCKET := "bucket"

/-- Collaborators whose awaited functions all reject with the same error. -/
def failingServices : Services String where
  getViewerToken := .error "boom"
  listObjects := .error "boom"
  getManifest := fun _ => .error "boom"
  uploadObject := fun _ _ => .error "boom"
  translateObject := fun _ _ => .error "boom"
  deleteObject := fun _ => .error "boom"
  urnify := fun objectId => "urn-" ++ objectId
  APS_BUCKET := "bucket"

/-- Collaborators where the upload succeeds and the translation request rejects. -/
def translateFailingServices : Services String :=
  { demoServices none with translateObject := fun _ _ => .error "boom" }

/-- One derivative with messages `[m1]`, whose only child has no messages of its own
and has one child with messages `[m3]`. -/
def deepManifest : Manifest String where
  status := "success"
  progress := "complete"
  derivatives := some [.mk (some ["m1"]) (some [.mk none (some [.mk (some ["m3"]) none])])]

/-- One derivative with messages `[m1]` and one child with messages `[m2]`. -/
def childManifest : Manifest String where
  status := "success"
  progress := "complete"
  derivatives := some [.mk (some ["m1"]) (some [.mk (some ["m2"]) none])]

/-- One derivative with messages `[m1]` and no `children` field. -/
def leafManifest : Manifest String where
  status := "success"
  progress := "complete"
  derivatives := some [.mk (some ["m1"]) none]

/-- As `leafManifest`, with `children: []` on the derivative. -/
def emptyChildrenManifest : Manifest String where
  status := "success"
  progress := "complete"
  derivatives := some [.mk (some ["m1"]) (some [])]

/-- One derivative with neither a `messages` nor a `children` field. -/
def silentManifest : Manifest String where
  status := "inprogress"
  progress := "50% complete"
  derivatives := some [.mk none none]

/-- As `silentManifest`, with `messages: []` and `children: []` on the derivative. -/
def silentEmptyManifest : Manifest String where
  status := "inprogress"
  progress := "50% complete"
  derivatives := some [.mk (some []) (some [])]

/-- A manifest without the `derivatives` field. -/
def bareManifest : Manifest String where
  status := "pending"
  progress := "0% complete"
  derivatives := none

/-- A manifest whose `derivatives` array is empty. -/
def emptyManifest : Manifest String where
  status := "pending"
  progress := "0% complete"
  derivatives := some []

/-- An upload request with a file and the given value of the entry-point field. -/
def demoUpload (entrypoint : Option String) : UploadRequest where
  fields := fun key => if key = "model-zip-entrypoint" then entrypoint else none
  files := fun key => if key = "model-file" then some ⟨"house.zip", "/tmp/upload_1"⟩ else none

/-- An upload request with text fields only. -/
def fileLessUpload : UploadRequest where
  fields := fun key => if key = "model-zip-entrypoint" then some "scene.svf" else none
  files := fun _ => none

/-! ## Lemmas on the message loop -/

/-- The inner loop returns the accumulator it was given. -/
theorem foldl_childStep {α : Type} (children : List (Derivative α)) (messages : List α) :
    children.foldl childStep messages = messages := by
  induction children with
  | nil => rfl
  | cons c cs ih => simpa [childStep] using ih

/-- One outer iteration appends the own messages of the derivative and nothing else. -/
theorem derivativeStep_eq {α : Type} (messages : List α) (d : Derivative α) :
    derivativeStep messages d = messages ++ ownMessages d := by
  unfold derivativeStep ownMessages
  cases d.children with
  | none => rfl
  | some cs => simp [foldl_childStep]

/-- The outer loop appends the own messages of the derivatives in listed order. -/
theorem foldl_derivativeStep {α : Type} (ds : List (Derivative α)) (messages : List α) :
    ds.foldl derivativeStep messages = messages ++ ds.flatMap ownMessages := by
  induction ds generalizing messages with
  | nil => simp
  | cons d ds ih => simp [ih, derivativeStep_eq, List.append_assoc]

/-- The loop computes the concatenation of the own messages of the top-level derivatives. -/
theorem collectMessages_eq {α : Type} (manifest : Manifest α) :
    collectMessages manifest = topLevelMessages manifest := by
  unfold collectMessages topLevelMessages
  cases manifest.derivatives with
  | none => rfl
  | some ds => simp [foldl_derivativeStep]

/-- Filling a node keeps its own messages. -/
theorem ownMessages_fillNode {α : Type} (d : Derivative α) :
    ownMessages (fillNode d) = ownMessages d := by
  cases d with
  | mk ms cs => simp [fillNode, ownMessages, Derivative.messages]

/-- Filling a sequence of nodes keeps the concatenation of their own messages. -/
theorem flatMap_fillList {α : Type} (ds : List (Derivative α)) :
    (fillList ds).flatMap ownMessages = ds.flatMap ownMessages := by
  induction ds with
  | nil => simp [fillList]
  | cons d ds ih => simp [fillList, ih, ownMessages_fillNode]

/-- Filling a manifest keeps the messages the handler returns. -/
theorem topLevelMessages_fill {α : Type} (manifest : Manifest α) :
    topLevelMessages (fillManifest manifest) = topLevelMessages manifest := by
  unfold topLevelMessages fillManifest
  cases manifest.derivatives with
  | none => simp [fillChildren]
  | some ds => simp [fillChildren, flatMap_fillList]

/-- Sequences of nodes with the same `messages` fields have the same concatenation of
own messages. -/
theorem flatMap_ownMessages_congr {α : Type} :
    ∀ (ds ds' : List (Derivative α)),
      ds.map Derivative.messages = ds'.map Derivative.messages →
        ds.flatMap ownMessages = ds'.flatMap ownMessages
  | [], [], _ => rfl
  | [], _ :: _, h => by simp at h
  | _ :: _, [], h => by simp at h
  | d :: ds, d' :: ds', h => by
    simp only [List.map_cons, List.cons.injEq] at h
    simp [ownMessages, h.1, flatMap_ownMessages_congr ds ds' h.2]

/-- Manifests whose derivatives carry the same `messages` fields return the same messages. -/
theorem topLevelMessages_congr {α : Type} (m m' : Manifest α)
    (h : m.derivatives.map (List.map Derivative.messages) =
      m'.derivatives.map (List.map Derivative.messages)) :
    topLevelMessages m = topLevelMessages m' := by
  unfold topLevelMessages
  cases hm : m.derivatives with
  | none =>
    cases hm' : m'.derivatives with
    | none => rfl
    | some ds' => simp [hm, hm'] at h
  | some ds =>
    cases hm' : m'.derivatives with
    | none => simp [hm, hm'] at h
    | some ds' =>
      simp only [hm, hm', Option.map_some', Option.some.injEq] at h
      simpa using flatMap_ownMessages_congr ds ds' h

/-- The run of the status handler on a manifest that exists. -/
theorem statusHandler_manifest {α : Type} (svc : Services α) (urn : String)
    (m : Manifest α) (h : svc.getManifest urn = .ok (some m)) :
    statusHandler svc urn =
      ⟨[.getManifest urn],
        .respond 200 (.object [("status", .str m.status), ("progress", .str m.progress),
          ("messages", .list (topLevelMessages m))])⟩ := by
  simp [statusHandler, h, collectMessages_eq]

/-- Concatenating lists that are all empty gives the empty list. -/
theorem flatMap_eq_nil_of_forall {α β : Type} (f : β → List α) :
    ∀ (xs : List β), (∀ x ∈ xs, f x = []) → xs.flatMap f = []
  | [], _ => rfl
  | x :: xs, h => by
    have hx : f x = [] := h x (List.mem_cons_self x xs)
    have hxs : xs.flatMap f = [] :=
      flatMap_eq_nil_of_forall f xs (fun y hy => h y (List.mem_cons_of_mem x hy))
    simp [hx, hxs]

/-- When no direct child has messages, the two-level concatenation is the top-level one. -/
theorem flatMap_two_levels {α : Type} :
    ∀ (ds : List (Derivative α)),
      (∀ d ∈ ds, ∀ c ∈ d.children.getD [], ownMessages c = []) →
        ds.flatMap (fun d => ownMessages d ++ (d.children.getD []).flatMap ownMessages) =
          ds.flatMap ownMessages
  | [], _ => rfl
  | d :: ds, h => by
    have hd : (d.children.getD []).flatMap ownMessages = [] :=
      flatMap_eq_nil_of_forall ownMessages _ (h d (List.mem_cons_self d ds))
    have hds := flatMap_two_levels ds (fun y hy => h y (List.mem_cons_of_mem d hy))
    simp [hd, hds]

/-! ## The status route -/

/-- C1, as amended: when no direct child of a top-level derivative has messages of its
own, the `messages` of the status response are, for each derivative in listed order, its
own messages followed by the own messages of its direct children; nodes below the
children are not read. -/
theorem status_messages_two_levels {α : Type} (svc : Services α) (urn : String)
    (m : Manifest α) (h : svc.getManifest urn = .ok (some m))
    (hchildren : ∀ d ∈ m.derivatives.getD [], ∀ c ∈ d.children.getD [], ownMessages c = []) :
    (statusHandler svc urn).reply.messages = some (twoLevelFlatten m) := by
  rw [statusHandler_manifest svc urn m h]
  simp [Reply.messages, JsObject.get, List.lookup, twoLevelFlatten, topLevelMessages,
    flatMap_two_levels _ hchildren]

/-- C1, witness of the amended statement on `deepManifest`: the grandchild message
`m3` is not part of the result. -/
theorem status_messages_two_levels_witness :
    (demoServices (some deepManifest)).getManifest "urn" = .ok (some deepManifest) ∧
      (∀ d ∈ deepManifest.derivatives.getD [], ∀ c ∈ d.children.getD [],
        ownMessages c = []) ∧
      (statusHandler (demoServices (some deepManifest)) "urn").reply.messages
        = some (twoLevelFlatten deepManifest) ∧
      twoLevelFlatten deepManifest = ["m1"] :=
  have hchildren : ∀ d ∈ deepManifest.derivatives.getD [], ∀ c ∈ d.children.getD [],
      ownMessages c = [] := by
    simp [deepManifest, ownMessages, Derivative.children, Derivative.messages]
  ⟨rfl, hchildren,
    status_messages_two_levels (demoServices (some deepManifest)) "urn" deepManifest rfl
      hchildren,
    by decide⟩

/-- The inner loop has no effect on the result: with one derivative carrying `[m1]` and
one child carrying `[m2]` the response carries `[m1]`, not the two-level flattening
`[m1, m2]`. -/
theorem status_child_messages_dropped :
    (statusHandler (demoServices (some childManifest)) "urn").reply.messages = some ["m1"] ∧
      twoLevelFlatten childManifest = ["m1", "m2"] ∧
      specFlatten childManifest = ["m1", "m2"] := by
  refine ⟨by decide, by decide, by decide⟩

/-- C1, counterexample to the claim as stated: on `deepManifest` the full pre-order
flattening is `[m1, m3]` while the status response carries `[m1]`. -/
theorem status_full_flatten_counterexample :
    (demoServices (some deepManifest)).getManifest "urn" = .ok (some deepManifest) ∧
      specFlatten deepManifest = ["m1", "m3"] ∧
      (statusHandler (demoServices (some deepManifest)) "urn").reply.messages = some ["m1"] ∧
      (statusHandler (demoServices (some deepManifest)) "urn").reply.messages
        ≠ some (specFlatten deepManifest) := by
  refine ⟨rfl, by decide, by decide, by decide⟩

/-- C2: when the manifest lookup yields no manifest, the status handler answers with
exactly the object `{status: "n/a"}`, whose only key is `status`, and does not call
`next`. -/
theorem status_no_manifest {α : Type} (svc : Services α) (urn : String)
    (h : svc.getManifest urn = .ok none) :
    (statusHandler svc urn).reply = .respond 200 (.object [("status", .str "n/a")]) ∧
      (statusHandler svc urn).reply.keys = some ["status"] ∧
      (statusHandler svc urn).reply.field "progress" = none ∧
      (statusHandler svc urn).reply.field "messages" = none ∧
      ∀ e, (statusHandler svc urn).reply ≠ .next e := by
  simp [statusHandler, h, Reply.keys, Reply.field, JsObject.keys, JsObject.get, List.lookup]

/-- C2, witness: a lookup that yields no manifest. -/
theorem status_no_manifest_witness :
    (demoServices none).getManifest "urn" = .ok none ∧
      (statusHandler (demoServices none) "urn").reply
        = .respond 200 (.object [("status", .str "n/a")]) ∧
      (statusHandler (demoServices none) "urn").reply.keys = some ["status"] :=
  ⟨rfl, (status_no_manifest (demoServices none) "urn" rfl).1,
    (status_no_manifest (demoServices none) "urn" rfl).2.1⟩

/-- C7: for a manifest that exists, the response is an object with exactly the keys
`status`, `progress`, `messages`, and its `status` and `progress` are those of the
manifest root, whatever `derivatives` holds. -/
theorem status_copies_root {α : Type} (svc : Services α) (urn : String)
    (status progress : String) (derivatives : Option (List (Derivative α)))
    (h : svc.getManifest urn = .ok (some ⟨status, progress, derivatives⟩)) :
    (statusHandler svc urn).reply.keys = some ["status", "progress", "messages"] ∧
      (statusHandler svc urn).reply.field "status" = some (.str status) ∧
      (statusHandler svc urn).reply.field "progress" = some (.str progress) := by
  simp [statusHandler, h, Reply.keys, Reply.field, JsObject.keys, JsObject.get, List.lookup]

/-- C7, witness on a manifest with nested derivatives. -/
theorem status_copies_root_witness :
    (demoServices (some deepManifest)).getManifest "urn"
        = .ok (some ⟨"success", "complete", deepManifest.derivatives⟩) ∧
      (statusHandler (demoServices (some deepManifest)) "urn").reply.keys
        = some ["status", "progress", "messages"] ∧
      (statusHandler (demoServices (some deepManifest)) "urn").reply.field "status"
        = some (.str "success") ∧
      (statusHandler (demoServices (some deepManifest)) "urn").reply.field "progress"
        = some (.str "complete") :=
  ⟨rfl, status_copies_root (demoServices (some deepManifest)) "urn" "success" "complete"
    deepManifest.derivatives rfl⟩

/-- C8: for a manifest that exists the status handler sends a response, never an error;
two manifests that agree once absent `derivatives`, `messages` and `children` fields are
read as empty sequences get the same response; and an empty or absent `derivatives`
gives `messages == []`. -/
theorem status_absent_fields_as_empty {α : Type} (svc : Services α) (urn : String)
    (m : Manifest α) (h : svc.getManifest urn = .ok (some m)) :
    (∃ body, (statusHandler svc urn).reply = .respond 200 body) ∧
      (∀ (svc' : Services α) (urn' : String) (m' : Manifest α),
        svc'.getManifest urn' = .ok (some m') → fillManifest m = fillManifest m' →
          (statusHandler svc urn).reply = (statusHandler svc' urn').reply) ∧
      (m.derivatives.getD [] = [] → (statusHandler svc urn).reply.messages = some []) := by
  refine ⟨?_, ?_, ?_⟩
  · rw [statusHandler_manifest svc urn m h]
    exact ⟨_, rfl⟩
  · intro svc' urn' m' h' hfill
    rw [statusHandler_manifest svc urn m h, statusHandler_manifest svc' urn' m' h']
    have hs : (fillManifest m).status = (fillManifest m').status := by rw [hfill]
    have hp : (fillManifest m).progress = (fillManifest m').progress := by rw [hfill]
    simp only [fillManifest] at hs hp
    have hm : topLevelMessages m = topLevelMessages m' := by
      rw [← topLevelMessages_fill m, ← topLevelMessages_fill m', hfill]
    simp [hs, hp, hm]
  · intro hd
    rw [statusHandler_manifest svc urn m h]
    simp [Reply.messages, JsObject.get, List.lookup, topLevelMessages, hd]

/-- C8, witness: `leafManifest` has no `children` field on its derivative, and the
manifest with `children: []` there gets the same response; `silentManifest` has a
derivative without `messages` and gets the response of the manifest with `messages: []`;
`bareManifest` has no `derivatives` and gets `messages == []`, as `emptyManifest` does. -/
theorem status_absent_fields_as_empty_witness :
    (demoServices (some leafManifest)).getManifest "urn" = .ok (some leafManifest) ∧
      fillManifest leafManifest = fillManifest emptyChildrenManifest ∧
      fillManifest silentManifest = fillManifest silentEmptyManifest ∧
      fillManifest bareManifest = fillManifest emptyManifest ∧
      bareManifest.derivatives.getD [] = [] ∧
      (statusHandler (demoServices (some silentManifest)) "urn").reply
        = (statusHandler (demoServices (some silentEmptyManifest)) "urn").reply ∧
      (statusHandler (demoServices (some leafManifest)) "urn").reply
        = (statusHandler (demoServices (some emptyChildrenManifest)) "urn").reply ∧
      (statusHandler (demoServices (some bareManifest)) "urn").reply
        = (statusHandler (demoServices (some emptyManifest)) "urn").reply ∧
      (statusHandler (demoServices (some bareManifest)) "urn").reply.messages = some [] :=
  ⟨rfl, rfl, rfl, rfl, rfl,
    (status_absent_fields_as_empty (demoServices (some silentManifest)) "urn" silentManifest
      rfl).2.1 _ "urn" silentEmptyManifest rfl rfl,
    (status_absent_fields_as_empty (demoServices (some leafManifest)) "urn" leafManifest
      rfl).2.1 _ "urn" emptyChildrenManifest rfl rfl,
    (status_absent_fields_as_empty (demoServices (some bareManifest)) "urn" bareManifest
      rfl).2.1 _ "urn" emptyManifest rfl rfl,
    (status_absent_fields_as_empty (demoServices (some bareManifest)) "urn" bareManifest
      rfl).2.2 rfl⟩

/-- C10: for a manifest that exists, the `messages` of the status response are the
concatenation, in listed order, of the own messages of the top-level derivatives; their
number is the sum of the lengths of those lists; and a manifest that differs only in the
`children` of its derivatives gets the identical response. -/
theorem status_messages_top_level_only {α : Type} (svc : Services α) (urn : String)
    (m : Manifest α) (h : svc.getManifest urn = .ok (some m)) :
    (statusHandler svc urn).reply.messages = some (topLevelMessages m) ∧
      (topLevelMessages m).length
        = ((m.derivatives.getD []).map (fun d => (d.messages.getD []).length)).sum ∧
      (∀ (svc' : Services α) (urn' : String) (m' : Manifest α),
        svc'.getManifest urn' = .ok (some m') → SameUpToChildren m m' →
          (statusHandler svc urn).reply = (statusHandler svc' urn').reply) := by
  refine ⟨?_, ?_, ?_⟩
  · rw [statusHandler_manifest svc urn m h]
    simp [Reply.messages, JsObject.get, List.lookup]
  · simp [topLevelMessages, List.length_flatMap, Function.comp_def, ownMessages]
  · intro svc' urn' m' h' hsame
    obtain ⟨hs, hp, hd⟩ := hsame
    rw [statusHandler_manifest svc urn m h, statusHandler_manifest svc' urn' m' h']
    simp [hs, hp, topLevelMessages_congr m m' hd]

/-- C10, witness: `childManifest` and `leafManifest` differ only in the children of
their derivative and get the same response, with the one message `m1`. -/
theorem status_messages_top_level_only_witness :
    (demoServices (some childManifest)).getManifest "urn" = .ok (some childManifest) ∧
      SameUpToChildren childManifest leafManifest ∧
      (statusHandler (demoServices (some childManifest)) "urn").reply.messages
        = some (topLevelMessages childManifest) ∧
      topLevelMessages childManifest = ["m1"] ∧
      (statusHandler (demoServices (some childManifest)) "urn").reply
        = (statusHandler (demoServices (some leafManifest)) "urn").reply :=
  have hsame : SameUpToChildren childManifest leafManifest := ⟨rfl, rfl, rfl⟩
  ⟨rfl, hsame,
    (status_messages_top_level_only (demoServices (some childManifest)) "urn" childManifest
      rfl).1,
    by decide,
    (status_messages_top_level_only (demoServices (some childManifest)) "urn" childManifest
      rfl).2.2 _ "urn" leafManifest rfl hsame⟩

/-! ## The list route -/

/-- C4: when `listObjects` resolves to a list of entries, the list handler answers with
an array of the same length whose element at each position is
`{name: entry.objectKey, urn: urnify(entry.objectId)}` of the entry at that position. -/
theorem list_maps_entries {α : Type} (svc : Services α) (objects : List BucketObject)
    (h : svc.listObjects = .ok objects) :
    ∃ items : List (JsObject α),
      (listHandler svc).reply = .respond 200 (.array items) ∧
      items.length = objects.length ∧
      ∀ i : Nat, items[i]? = (objects[i]?).map (fun entry =>
        [("name", .str entry.objectKey), ("urn", .str (svc.urnify entry.objectId))]) := by
  refine ⟨objects.map (listEntry svc), ?_, ?_, ?_⟩
  · simp [listHandler, h]
  · simp
  · intro i
    rw [List.getElem?_map]
    rfl

/-- C4, witness: the two entries `a.rvt` / `id1` and `b.rvt` / `id2`. -/
theorem list_maps_entries_witness :
    (demoServices none).listObjects = .ok [⟨"a.rvt", "id1"⟩, ⟨"b.rvt", "id2"⟩] ∧
      (∃ items : List (JsObject String),
        (listHandler (demoServices none)).reply = .respond 200 (.array items) ∧
        items.length = 2 ∧
        ∀ i : Nat, items[i]? =
          (([⟨"a.rvt", "id1"⟩, ⟨"b.rvt", "id2"⟩] : List BucketObject)[i]?).map
            (fun entry => [("name", .str entry.objectKey),
              ("urn", .str ((demoServices none).urnify entry.objectId))])) ∧
      (listHandler (demoServices none)).reply = .respond 200 (.array
        [[("name", .str "a.rvt"), ("urn", .str ((demoServices none).urnify "id1"))],
         [("name", .str "b.rvt"), ("urn", .str ((demoServices none).urnify "id2"))]]) :=
  ⟨rfl, list_maps_entries (demoServices none) [⟨"a.rvt", "id1"⟩, ⟨"b.rvt", "id2"⟩] rfl, rfl⟩

/-! ## The upload route -/

/-- After the first statement, the entry-point field reads as the specification says:
absent when it was the empty string, unchanged otherwise. -/
theorem normalizeEntrypoint_entrypoint (fields : String → Option String) :
    normalizeEntrypoint fields "model-zip-entrypoint" = specEntrypoint fields := by
  unfold normalizeEntrypoint specEntrypoint
  split <;> simp

/-- C3: an upload request without a `model-file` entry gets status 400, and no
collaborator is invoked; the reply is a response, so `next` is not called. -/
theorem upload_missing_file {α : Type} (svc : Services α) (req : UploadRequest)
    (h : req.files "model-file" = none) :
    (uploadHandler svc req).calls = [] ∧
      (uploadHandler svc req).reply
        = .respond 400 (.text "The required field (\"model-file\") is missing.") := by
  simp [uploadHandler, h]

/-- C3, witness: a request with an entry-point field and no file, against collaborators
that would all succeed. -/
theorem upload_missing_file_witness :
    fileLessUpload.files "model-file" = none ∧
      (uploadHandler (demoServices none) fileLessUpload).calls = [] ∧
      (uploadHandler (demoServices none) fileLessUpload).reply
        = .respond 400 (.text "The required field (\"model-file\") is missing.") :=
  ⟨rfl, upload_missing_file (demoServices none) fileLessUpload rfl⟩

/-- C5: submitting `model-zip-entrypoint` as the empty string gives the same run as
omitting it, same collaborator invocations with the same arguments and same reply, and
every `translateObject` invocation of that run receives `undefined` as entry-point. -/
theorem upload_empty_entrypoint_as_absent {α : Type} (svc : Services α)
    (req : UploadRequest) :
    uploadHandler svc (req.withEntrypoint (some "")) = uploadHandler svc (req.withEntrypoint none) ∧
      ∀ (urn : String) (hint : Option String),
        Call.translateObject urn hint ∈ (uploadHandler svc (req.withEntrypoint (some ""))).calls →
          hint = none := by
  have h1 : normalizeEntrypoint (req.withEntrypoint (some "")).fields "model-zip-entrypoint"
      = none := by
    simp [normalizeEntrypoint_entrypoint, specEntrypoint, UploadRequest.withEntrypoint]
  have h2 : normalizeEntrypoint (req.withEntrypoint none).fields "model-zip-entrypoint"
      = none := by
    simp [normalizeEntrypoint_entrypoint, specEntrypoint, UploadRequest.withEntrypoint]
  have hf : ∀ v, (req.withEntrypoint v).files = req.files := fun _ => rfl
  constructor
  · simp only [uploadHandler, h1, h2, hf]
  · intro urn hint
    simp only [uploadHandler, h1, hf]
    split
    · simp
    · split
      · simp
      · split <;> simp

/-- C5, witness: the same file with the entry-point field empty and omitted. -/
theorem upload_empty_entrypoint_as_absent_witness :
    uploadHandler (demoServices none) ((demoUpload (some "scene.svf")).withEntrypoint (some ""))
        = uploadHandler (demoServices none) ((demoUpload (some "scene.svf")).withEntrypoint none) ∧
      Call.translateObject "urn-id-house.zip" none ∈
        (uploadHandler (demoServices none)
          ((demoUpload (some "scene.svf")).withEntrypoint (some ""))).calls ∧
      ∀ (urn : String) (hint : Option String),
        Call.translateObject urn hint ∈ (uploadHandler (demoServices none)
          ((demoUpload (some "scene.svf")).withEntrypoint (some ""))).calls → hint = none :=
  ⟨(upload_empty_entrypoint_as_absent (demoServices none) (demoUpload (some "scene.svf"))).1,
    by decide,
    (upload_empty_entrypoint_as_absent (demoServices none) (demoUpload (some "scene.svf"))).2⟩

/-- C6: when the request carries a `model-file` and both `uploadObject` and
`translateObject` resolve, the handler invokes `uploadObject` once with the name and path
of the file, then `translateObject` once with `urnify(obj.objectId)` and the entry-point
hint (empty string read as absent), and answers `{name: obj.objectKey, urn:
urnify(obj.objectId)}`: the reference sent for translation is the one returned. -/
theorem upload_success {α : Type} (svc : Services α) (req : UploadRequest)
    (file : UploadedFile) (obj : BucketObject) (job : α)
    (hfile : req.files "model-file" = some file)
    (hupload : svc.uploadObject file.name file.path = .ok obj)
    (htranslate :
      svc.translateObject (svc.urnify obj.objectId) (specEntrypoint req.fields) = .ok job) :
    (uploadHandler svc req).calls
        = [.uploadObject file.name file.path, .urnify obj.objectId,
            .translateObject (svc.urnify obj.objectId) (specEntrypoint req.fields),
            .urnify obj.objectId] ∧
      (uploadHandler svc req).reply
        = .respond 200 (.object [("name", .str obj.objectKey),
            ("urn", .str (svc.urnify obj.objectId))]) := by
  simp [uploadHandler, hfile, hupload, normalizeEntrypoint_entrypoint, htranslate]

/-- C6, witness: `house.zip` uploaded with entry point `scene.svf`. -/
theorem upload_success_witness :
    (demoUpload (some "scene.svf")).files "model-file"
        = some ⟨"house.zip", "/tmp/upload_1"⟩ ∧
      (demoServices none).uploadObject "house.zip" "/tmp/upload_1"
        = .ok ⟨"house.zip", "id-house.zip"⟩ ∧
      (uploadHandler (demoServices none) (demoUpload (some "scene.svf"))).calls
        = [.uploadObject "house.zip" "/tmp/upload_1", .urnify "id-house.zip",
            .translateObject "urn-id-house.zip" (some "scene.svf"),
            .urnify "id-house.zip"] ∧
      (uploadHandler (demoServices none) (demoUpload (some "scene.svf"))).reply
        = .respond 200 (.object [("name", .str "house.zip"),
            ("urn", .str "urn-id-house.zip")]) :=
  ⟨rfl, rfl,
    upload_success (demoServices none) (demoUpload (some "scene.svf"))
      ⟨"house.zip", "/tmp/upload_1"⟩ ⟨"house.zip", "id-house.zip"⟩ "job" rfl rfl rfl⟩

/-! ## Failure of a collaborator -/

/-- C9: in each of the five routes, when the collaborator rejects with `e` the reply is
`next(e)`, so no response is sent. In the upload route a rejected `uploadObject` leaves
`translateObject` uninvoked, and a rejected `translateObject` is forwarded as well. In the
delete route a response is sent exactly when `deleteObject` resolved. -/
theorem collaborator_failure_forwarded {α : Type} (svc : Services α) (e : α)
    (urn objectKey : String) (req : UploadRequest) (file : UploadedFile)
    (hfile : req.files "model-file" = some file) :
    (svc.getViewerToken = .error e → (tokenHandler svc).reply = .next e) ∧
      (svc.listObjects = .error e → (listHandler svc).reply = .next e) ∧
      (svc.getManifest urn = .error e → (statusHandler svc urn).reply = .next e) ∧
      (svc.uploadObject file.name file.path = .error e →
        (uploadHandler svc req).reply = .next e ∧
          ∀ (u : String) (hint : Option String),
            Call.translateObject u hint ∉ (uploadHandler svc req).calls) ∧
      (∀ obj : BucketObject, svc.uploadObject file.name file.path = .ok obj →
        svc.translateObject (svc.urnify obj.objectId) (specEntrypoint req.fields) = .error e →
          (uploadHandler svc req).reply = .next e) ∧
      (svc.deleteObject objectKey = .error e → (deleteHandler svc objectKey).reply = .next e) ∧
      ((∃ body, (deleteHandler svc objectKey).reply = .respond 200 body) ↔
        ∃ result, svc.deleteObject objectKey = .ok result) := by
  refine ⟨?_, ?_, ?_, ?_, ?_, ?_, ?_⟩
  · intro h
    simp [tokenHandler, h]
  · intro h
    simp [listHandler, h]
  · intro h
    simp [statusHandler, h]
  · intro h
    simp [uploadHandler, hfile, h]
  · intro obj hupload htranslate
    simp [uploadHandler, hfile, hupload, normalizeEntrypoint_entrypoint, htranslate]
  · intro h
    simp [deleteHandler, h]
  · unfold deleteHandler
    cases svc.deleteObject objectKey with
    | error err => simp
    | ok result => simp

/-- C9, witness: every route against collaborators that reject with `boom`, and the
upload route against collaborators where only the translation request rejects. -/
theorem collaborator_failure_forwarded_witness :
    (demoUpload none).files "model-file" = some ⟨"house.zip", "/tmp/upload_1"⟩ ∧
      (tokenHandler failingServices).reply = .next "boom" ∧
      (listHandler failingServices).reply = .next "boom" ∧
      (statusHandler failingServices "urn").reply = .next "boom" ∧
      ((uploadHandler failingServices (demoUpload none)).reply = .next "boom" ∧
        ∀ (u : String) (hint : Option String),
          Call.translateObject u hint ∉ (uploadHandler failingServices (demoUpload none)).calls) ∧
      (uploadHandler translateFailingServices (demoUpload none)).reply = .next "boom" ∧
      (deleteHandler failingServices "a.rvt").reply = .next "boom" ∧
      ((∃ body, (deleteHandler (demoServices none) "a.rvt").reply = .respond 200 body) ↔
        ∃ result, (demoServices none).deleteObject "a.rvt" = .ok result) :=
  have hbad := collaborator_failure_forwarded failingServices "boom" "urn" "a.rvt"
    (demoUpload none) ⟨"house.zip", "/tmp/upload_1"⟩ rfl
  ⟨rfl, hbad.1 rfl, hbad.2.1 rfl, hbad.2.2.1 rfl, hbad.2.2.2.1 rfl,
    (collaborator_failure_forwarded translateFailingServices "boom" "urn" "a.rvt"
      (demoUpload none) ⟨"house.zip", "/tmp/upload_1"⟩ rfl).2.2.2.2.1
      ⟨"house.zip", "id-house.zip"⟩ rfl rfl,
    hbad.2.2.2.2.2.1 rfl,
    (collaborator_failure_forwarded (demoServices none) "boom" "urn" "a.rvt"
      (demoUpload none) ⟨"house.zip", "/tmp/upload_1"⟩ rfl).2.2.2.2.2.2⟩

end BimViewer
